import Mathlib

/-!
# Verification of the calendar/timezone core of `data-transformer`

Shallow embedding of `src/transformers/date.ts` and of the behavior of its
delegates (`date-fns` v3 / `date-fns-tz` v3, the host `Date`/`Intl` runtime).

An instant is modelled as `Option Int`: `some t` is a JavaScript `Date`
holding `t` milliseconds since the Unix epoch, `none` is an Invalid Date
(internal time value `NaN`).  Formatting functions return
`Except String String`: `.error` models a thrown `RangeError`.

Timezones are modelled as piecewise-constant UTC-offset rule sets with
finitely many transitions, mirroring the host IANA database (an external
collaborator of this library); local-time to UTC disambiguation at DST gaps
and overlaps follows ECMA-262 (`UTC(t)` interprets skipped and repeated
local times using the offset *before* the transition).
-/

namespace DataTransformer

/-- One constant-offset segment of a timezone: offset east of UTC in
milliseconds, plus the `Intl` short and long names for that segment. -/
structure ZoneSeg where
  off : Int
  abbr : String
  name : String
deriving DecidableEq

/-- A timezone rule set: an initial segment and a finite ascending list of
`(transition instant, segment in force from that instant)` pairs.
Models the host IANA timezone database restricted to the rules in force
at the instants exercised in this development. -/
structure ZoneRules where
  base : ZoneSeg
  transitions : List (Int × ZoneSeg)
deriving DecidableEq

/-- The segment of `z` in force at UTC instant `t`. -/
def segAtAux (cur : ZoneSeg) : List (Int × ZoneSeg) → Int → ZoneSeg
  | [], _ => cur
  | (T, s) :: rest, t => if t < T then cur else segAtAux s rest t

def ZoneRules.segAt (z : ZoneRules) (t : Int) : ZoneSeg :=
  segAtAux z.base z.transitions t

/-- Offset (ms east of UTC) of zone `z` at UTC instant `t`. -/
def ZoneRules.offsetAt (z : ZoneRules) (t : Int) : Int := (z.segAt t).off

/-- Local time value of UTC instant `t` in zone `z` (ECMA-262 `LocalTime`). -/
def ZoneRules.localFromUtc (z : ZoneRules) (t : Int) : Int := t + z.offsetAt t

/-- ECMA-262 `UTC(l)`: the instant whose local time value in `z` is `l`.
Scanning segments in time order returns the earliest consistent
interpretation (the ECMA rule for repeated local times at an overlap);
a local time skipped at a gap is interpreted with the offset in force
before the transition, also per ECMA-262. -/
def utcFromLocalAux (off : Int) : List (Int × ZoneSeg) → Int → Int
  | [], l => l - off
  | (T, s) :: rest, l =>
    if l - off < T then l - off
    else if l - s.off < T then l - off
    else utcFromLocalAux s.off rest l

def ZoneRules.utcFromLocal (z : ZoneRules) (l : Int) : Int :=
  utcFromLocalAux z.base.off z.transitions l

/-- ECMA-262 `TimeClip`: time values of magnitude above 8.64e15 ms denote
an Invalid Date. -/
def clip (t : Int) : Option Int :=
  if t.natAbs ≤ 8640000000000000 then some t else none

/-! ## Civil (proleptic Gregorian) calendar conversions

Days-since-epoch to year/month/day and back, the field arithmetic that
ECMA-262 `Date` getters/setters and `date-fns` token formatting are
specified with. -/

/-- `(year, month 1..12, day 1..31)` of day number `d` (days since
1970-01-01). -/
def civilFromDays (d : Int) : Int × Int × Int :=
  let z := d + 719468
  let era := z.fdiv 146097
  let doe := z - era * 146097
  let yoe := (doe - doe.ediv 1460 + doe.ediv 36524 - doe.ediv 146096).ediv 365
  let y := yoe + era * 400
  let doy := doe - (365 * yoe + yoe.ediv 4 - yoe.ediv 100)
  let mp := (5 * doy + 2).ediv 153
  let dd := doy - (153 * mp + 2).ediv 5 + 1
  let m := if mp < 10 then mp + 3 else mp - 9
  (if m ≤ 2 then y + 1 else y, m, dd)

/-- Day number of civil date `(y, m, d)`; linear in `d`, normalizing month
and day overflow exactly as ECMA-262 `MakeDay`. -/
def daysFromCivil (y m d : Int) : Int :=
  let y' := if m ≤ 2 then y - 1 else y
  let era := y'.fdiv 400
  let yoe := y' - era * 400
  let mp := if m > 2 then m - 3 else m + 9
  let doy := (153 * mp + 2).ediv 5 + d - 1
  let doe := yoe * 365 + yoe.ediv 4 - yoe.ediv 100 + doy
  era * 146097 + doe - 719468

/-! ## Instant/timestamp conversions (`date.ts` lines 59–93) -/

/-- `toUnixTimestamp = (date) => date.getTime()`; an Invalid Date yields
`NaN` (modelled `none`). -/
def toUnixTimestamp (d : Option Int) : Option Int := d

/-- `toUnixTimestampSeconds = getUnixTime`, i.e.
`Math.floor(date.getTime() / 1000)`. -/
def toUnixTimestampSeconds (d : Option Int) : Option Int :=
  d.map (fun t => t.fdiv 1000)

/-- `fromUnixTimestamp = (ms) => new Date(ms)` (with `TimeClip`). -/
def fromUnixTimestamp (ms : Int) : Option Int := clip ms

/-- `fromUnixTimestampSeconds = fromUnixTime`, i.e. `new Date(s * 1000)`. -/
def fromUnixTimestampSeconds (s : Int) : Option Int := clip (s * 1000)

/-! ## Day arithmetic (`date.ts` lines 100–111)

`date-fns` `addDays` runs `_date.setDate(_date.getDate() + amount)`;
by ECMA-262 `MakeDay`/`MakeDate` this sets the local time value to
`localValue + amount * 86400000` and converts back with `UTC` and
`TimeClip`.  `subDays(date, amount)` is `addDays(date, -amount)`. -/

def addDays (z : ZoneRules) (days : Int) (d : Option Int) : Option Int :=
  match d with
  | none => none
  | some t =>
    if days = 0 then some t
    else clip (z.utcFromLocal (z.localFromUtc t + days * 86400000))

def subtractDays (z : ZoneRules) (days : Int) (d : Option Int) : Option Int :=
  addDays z (-days) d

/-! ## The host timezone database and ambient environment

The runtime's timezone database and the ambient default zone are external
collaborators of this core (spec §6).  `tzdb` models the IANA entries the
repository's defaults and tests exercise, with their 2023 rules (DST
transitions and the `Intl` en-US short/long zone names). -/

def tz_UTC : ZoneRules :=
  ⟨⟨0, "UTC", "Coordinated Universal Time"⟩, []⟩

/-- America/New_York, 2023 rules: EST (UTC-5) with DST (UTC-4) from
2023-03-12T07:00Z to 2023-11-05T06:00Z. -/
def tz_AmericaNewYork : ZoneRules :=
  ⟨⟨-18000000, "EST", "Eastern Standard Time"⟩,
   [(1678604400000, ⟨-14400000, "EDT", "Eastern Daylight Time"⟩),
    (1699164000000, ⟨-18000000, "EST", "Eastern Standard Time"⟩)]⟩

/-- Europe/Berlin, 2023 rules: CET (UTC+1) with summer time (UTC+2) from
2023-03-26T01:00Z to 2023-10-29T01:00Z. -/
def tz_EuropeBerlin : ZoneRules :=
  ⟨⟨3600000, "GMT+1", "Central European Standard Time"⟩,
   [(1679792400000, ⟨7200000, "GMT+2", "Central European Summer Time"⟩),
    (1698541200000, ⟨3600000, "GMT+1", "Central European Standard Time"⟩)]⟩

/-- Lookup in the host timezone database; `none` models an identifier the
runtime cannot resolve (`Intl` raises `RangeError` for those). -/
def tzdb (name : String) : Option ZoneRules :=
  if name = "UTC" then some tz_UTC
  else if name = "America/New_York" then some tz_AmericaNewYork
  else if name = "Europe/Berlin" then some tz_EuropeBerlin
  else none

/-- Ambient environment state: the default timezone the host can determine,
or `none` when the environment cannot determine one. -/
structure Env where
  tzName : Option String

/-- A reachable ambient state: whatever zone the environment reports is a
non-empty identifier from the host's own database (guaranteed by ECMA-402:
`resolvedOptions().timeZone` is always a valid identifier). -/
def envWF (env : Env) : Prop :=
  ∀ s, env.tzName = some s → s ≠ "" ∧ (tzdb s).isSome = true

/-- `getUserTimezone = () => Intl.DateTimeFormat().resolvedOptions().timeZone`
(`date.ts` lines 134–136).  The host `Intl` always reports an identifier;
when the environment cannot determine a zone, ICU substitutes "UTC"
(modelled by `Option.getD`). -/
def getUserTimezone (env : Env) : String := env.tzName.getD "UTC"

/-- The rule set of the machine-local zone, used by zone-less `Date`
operations (`format`, `setDate`, local field getters). -/
def localRules (env : Env) : ZoneRules := (tzdb (getUserTimezone env)).getD tz_UTC

/-- JavaScript truthiness for an optional string argument: `undefined` and
`""` are falsy, so `s || dflt` rejects both. -/
def truthyStr (s : Option String) : Option String :=
  match s with
  | none => none
  | some s => if s = "" then none else some s

/-- JavaScript truthiness for an optional number argument: `undefined` and
`0` are falsy. -/
def truthyInt (n : Option Int) : Option Int :=
  match n with
  | none => none
  | some n => if n = 0 then none else some n

/-! ## Pattern rendering (`date-fns` `format` / `date-fns-tz`
`formatInTimeZone`)

Renders the wall-clock fields of an instant, as observed in a zone, by
substituting `date-fns` pattern tokens.  Exactly the token letters used by
the repository's formatters are interpreted; quoted sections are literal. -/

/-- The wall-clock fields of instant `t` in zone `z`. -/
structure DateFields where
  y : Int
  m : Int
  d : Int
  hh : Int
  mi : Int
  abbr : String
  name : String

def fieldsAt (z : ZoneRules) (t : Int) : DateFields :=
  let seg := z.segAt t
  let wall := t + seg.off
  let days := wall.fdiv 86400000
  let msod := wall.emod 86400000
  let c := civilFromDays days
  { y := c.1, m := c.2.1, d := c.2.2,
    hh := msod.ediv 3600000, mi := (msod.emod 3600000).ediv 60000,
    abbr := seg.abbr, name := seg.name }

def pad2 (n : Int) : String :=
  if n < 10 then "0" ++ toString n else toString n

def pad4 (n : Int) : String :=
  if n < 10 then "000" ++ toString n
  else if n < 100 then "00" ++ toString n
  else if n < 1000 then "0" ++ toString n
  else toString n

def monthName (m : Int) : String :=
  if m = 1 then "January" else if m = 2 then "February"
  else if m = 3 then "March" else if m = 4 then "April"
  else if m = 5 then "May" else if m = 6 then "June"
  else if m = 7 then "July" else if m = 8 then "August"
  else if m = 9 then "September" else if m = 10 then "October"
  else if m = 11 then "November" else "December"

/-- Substitution for one token: a run of `n` copies of letter `c`. -/
def renderTok (f : DateFields) (c : Char) (n : Nat) : String :=
  if c = 'y' ∧ n = 4 then pad4 f.y
  else if c = 'M' ∧ n = 4 then monthName f.m
  else if c = 'M' ∧ n = 2 then pad2 f.m
  else if c = 'd' ∧ n = 2 then pad2 f.d
  else if c = 'd' ∧ n = 1 then toString f.d
  else if c = 'H' ∧ n = 2 then pad2 f.hh
  else if c = 'm' ∧ n = 2 then pad2 f.mi
  else if c = 'h' ∧ n = 1 then
    toString (let h := f.hh.emod 12; if h = 0 then (12 : Int) else h)
  else if c = 'a' ∧ n = 1 then (if f.hh < 12 then "AM" else "PM")
  else if c = 'z' ∧ n = 3 then f.abbr
  else if c = 'z' ∧ n = 4 then f.name
  else String.mk (List.replicate n c)

/-- Scan the pattern: a run of equal letters is a token, a `'…'` section is
literal (with `''` an escaped quote), anything else is copied verbatim.
Structural recursion on a fuel bound (each step consumes at least one
character, so fuel `≥ length` never runs out). -/
def renderAux (f : DateFields) : Nat → List Char → String
  | 0, _ => ""
  | _, [] => ""
  | fuel + 1, c :: cs =>
    if c = '\'' then
      let content := cs.takeWhile (fun x => x ≠ '\'')
      let rest := (cs.dropWhile (fun x => x ≠ '\'')).drop 1
      (if content.isEmpty then "'" else String.mk content) ++ renderAux f fuel rest
    else if c.isAlpha then
      let n := 1 + (cs.takeWhile (fun x => x = c)).length
      let rest := cs.dropWhile (fun x => x = c)
      renderTok f c n ++ renderAux f fuel rest
    else
      String.mk [c] ++ renderAux f fuel cs

/-- Render `pattern` for instant `t` as observed in zone `z`. -/
def renderPattern (z : ZoneRules) (t : Int) (pattern : String) : String :=
  renderAux (fieldsAt z t) pattern.data.length pattern.data

/-! ## Parsing (`isoDateToLocal` of the basic transformers)

`isoDateToLocal = (isoString) => new Date(isoString)`: the host `Date`
parser (an external collaborator), modelled for the ISO-8601 UTC forms
`yyyy-MM-ddTHH:mm:ssZ` and `yyyy-MM-ddTHH:mm:ss.SSSZ` that the repository
exercises; any other input yields an Invalid Date. -/

def parseDigits (cs : List Char) : Option Int :=
  if cs.all Char.isDigit then
    some (cs.foldl (fun a c => a * 10 + ((c.toNat : Int) - 48)) 0)
  else none

def mkUtcInstant (yd md dd hd nd sd fd : List Char) : Option Int :=
  match parseDigits yd, parseDigits md, parseDigits dd, parseDigits hd,
      parseDigits nd, parseDigits sd, parseDigits fd with
  | some y, some mo, some da, some hh, some mi, some ss, some ms =>
    if 1 ≤ mo ∧ mo ≤ 12 ∧ 1 ≤ da ∧ hh < 24 ∧ mi < 60 ∧ ss < 60 ∧
        civilFromDays (daysFromCivil y mo da) = (y, mo, da) then
      clip (daysFromCivil y mo da * 86400000 +
        hh * 3600000 + mi * 60000 + ss * 1000 + ms)
    else none
  | _, _, _, _, _, _, _ => none

def jsParseDate (s : String) : Option Int :=
  match s.data with
  | [y1, y2, y3, y4, '-', m1, m2, '-', d1, d2, 'T',
     h1, h2, ':', n1, n2, ':', s1, s2, 'Z'] =>
    mkUtcInstant [y1, y2, y3, y4] [m1, m2] [d1, d2] [h1, h2] [n1, n2]
      [s1, s2] ['0']
  | [y1, y2, y3, y4, '-', m1, m2, '-', d1, d2, 'T',
     h1, h2, ':', n1, n2, ':', s1, s2, '.', f1, f2, f3, 'Z'] =>
    mkUtcInstant [y1, y2, y3, y4] [m1, m2] [d1, d2] [h1, h2] [n1, n2]
      [s1, s2] [f1, f2, f3]
  | _ => none

def isoDateToLocal (s : String) : Option Int := jsParseDate s

/-- `isValidDate = isValid` of `date-fns`: a `Date` is valid iff its time
value is not `NaN`. -/
def isValidDate (d : Option Int) : Bool := d.isSome

/-! ## Zoned formatting (`date.ts` lines 28–57, 144–148, 174–208) -/

/-- `date-fns-tz` `formatInTimeZone(date, tz, fmt)`: resolving an unknown
zone makes `Intl` raise `RangeError`; an Invalid Date makes `format` raise
`RangeError: Invalid time value`. -/
def formatInTimeZone (d : Option Int) (tz : String) (fmt : String) :
    Except String String :=
  match tzdb tz with
  | none => Except.error ("RangeError: Invalid time zone specified: " ++ tz)
  | some rules =>
    match d with
    | none => Except.error "RangeError: Invalid time value"
    | some t => Except.ok (renderPattern rules t fmt)

/-- `date-fns` `format(date, fmt)`: renders in the machine-local zone;
raises `RangeError` on an Invalid Date. -/
def fnsFormat (d : Option Int) (fmt : String) (env : Env) :
    Except String String :=
  match d with
  | none => Except.error "RangeError: Invalid time value"
  | some t => Except.ok (renderPattern (localRules env) t fmt)

/-- `formatDate(formatString?, timeZone?)` (`date.ts` lines 28–39): the
returned transformer applies `formatString || 'MM/dd/yyyy'` and uses
`formatInTimeZone` when `timeZone` is truthy, plain `format` (machine-local
zone, read at invocation) otherwise. -/
def formatDate (formatString timeZone : Option String) (d : Option Int)
    (env : Env) : Except String String :=
  let fmt := (truthyStr formatString).getD "MM/dd/yyyy"
  match truthyStr timeZone with
  | some tz => formatInTimeZone d tz fmt
  | none => fnsFormat d fmt env

/-- `formatUSDate(timeZone?) = formatDate('MM/dd/yyyy', timeZone ||
'America/New_York')` (`date.ts` lines 46–48). -/
def formatUSDate (timeZone : Option String) :
    Option Int → Env → Except String String :=
  formatDate (some "MM/dd/yyyy") (some ((truthyStr timeZone).getD "America/New_York"))

/-- `formatEUDate(timeZone?) = formatDate('dd.MM.yyyy', timeZone ||
'Europe/Berlin')` (`date.ts` lines 55–57). -/
def formatEUDate (timeZone : Option String) :
    Option Int → Env → Except String String :=
  formatDate (some "dd.MM.yyyy") (some ((truthyStr timeZone).getD "Europe/Berlin"))

/-- `formatDateLocal(formatString?)` (`date.ts` lines 144–148): calls
`getUserTimezone()` once, when the transformer is created (`envCreate`),
and builds a `formatDate` with that zone baked in. -/
def formatDateLocal (formatString : Option String) (envCreate : Env) :
    Option Int → Env → Except String String :=
  formatDate (some ((truthyStr formatString).getD "MM/dd/yyyy"))
    (some (getUserTimezone envCreate))

/-- `formatDateHuman(timeZone?)` (`date.ts` lines 174–188): `tz` is fixed
at creation time (`timeZone || getUserTimezone()` evaluated outside the
returned closure); the closure renders date part plus short zone name.
The invocation environment is never consulted. -/
def formatDateHuman (timeZone : Option String) (envCreate : Env)
    (d : Option Int) (_envInvoke : Env) : Except String String :=
  let tz := (truthyStr timeZone).getD (getUserTimezone envCreate)
  match formatInTimeZone d tz "MMMM d, yyyy h:mm a",
      formatInTimeZone d tz "zzz" with
  | Except.ok dateStr, Except.ok tzAbbr => Except.ok (dateStr ++ " " ++ tzAbbr)
  | Except.error e, _ => Except.error e
  | _, Except.error e => Except.error e

/-- `formatDateHumanFull(timeZone?)` (`date.ts` lines 194–208): as
`formatDateHuman` but with the full zone name (`zzzz`). -/
def formatDateHumanFull (timeZone : Option String) (envCreate : Env)
    (d : Option Int) (_envInvoke : Env) : Except String String :=
  let tz := (truthyStr timeZone).getD (getUserTimezone envCreate)
  match formatInTimeZone d tz "MMMM d, yyyy h:mm a",
      formatInTimeZone d tz "zzzz" with
  | Except.ok dateStr, Except.ok tzFull => Except.ok (dateStr ++ " " ++ tzFull)
  | Except.error e, _ => Except.error e
  | _, Except.error e => Except.error e

/-! ## Relative formatting (`date.ts` lines 216–238)

`formatRelative(options?)` delegates to `date-fns`
`formatDistanceToNow(date, { addSuffix: true, ...options })`, embedded
here from the `date-fns` v3 `formatDistance` algorithm with its en-US
locale phrases. -/

/-- JavaScript `Math.round`: half-up rounding toward positive infinity. -/
def jsRound (q : ℚ) : Int := ⌊q + 1 / 2⌋

def fdXMinutes (n : Int) : String :=
  if n = 1 then "1 minute" else toString n ++ " minutes"

def fdAboutXHours (n : Int) : String :=
  if n = 1 then "about 1 hour" else "about " ++ toString n ++ " hours"

def fdXDays (n : Int) : String :=
  if n = 1 then "1 day" else toString n ++ " days"

def fdAboutXMonths (n : Int) : String :=
  if n = 1 then "about 1 month" else "about " ++ toString n ++ " months"

def fdXMonths (n : Int) : String :=
  if n = 1 then "1 month" else toString n ++ " months"

def fdAboutXYears (n : Int) : String :=
  if n = 1 then "about 1 year" else "about " ++ toString n ++ " years"

def fdOverXYears (n : Int) : String :=
  if n = 1 then "over 1 year" else "over " ++ toString n ++ " years"

def fdAlmostXYears (n : Int) : String :=
  if n = 1 then "almost 1 year" else "almost " ++ toString n ++ " years"

/-- Local wall-clock civil fields used by the `Date` getters/setters that
`differenceInMonths` relies on. -/
def civilAtLocal (l : Int) : Int × Int × Int := civilFromDays (l.fdiv 86400000)

/-- `date.getMonth()`: 0-based month in the machine-local zone. -/
def getMonth0 (z : ZoneRules) (t : Int) : Int :=
  (civilAtLocal (z.localFromUtc t)).2.1 - 1

/-- `date.getDate()`: day of month in the machine-local zone. -/
def getDayOfMonth (z : ZoneRules) (t : Int) : Int :=
  (civilAtLocal (z.localFromUtc t)).2.2

/-- `date.setDate(newDay)`: replace the local day-of-month (ECMA-262
`MakeDay` normalizes overflow), convert back with `UTC` and `TimeClip`. -/
def setLocalDay (z : ZoneRules) (t : Int) (newDay : Int) : Option Int :=
  let l := z.localFromUtc t
  let c := civilAtLocal l
  let tod := l.emod 86400000
  clip (z.utcFromLocal (daysFromCivil c.1 c.2.1 newDay * 86400000 + tod))

/-- `date.setMonth(newMonth0)` (0-based, normalized into the year). -/
def setLocalMonth (z : ZoneRules) (t : Int) (newMonth0 : Int) : Option Int :=
  let l := z.localFromUtc t
  let c := civilAtLocal l
  let tod := l.emod 86400000
  let ym := c.1 + newMonth0.fdiv 12
  let mn := newMonth0.emod 12 + 1
  clip (z.utcFromLocal (daysFromCivil ym mn c.2.2 * 86400000 + tod))

/-- `date-fns` `isLastDayOfMonth`, in the machine-local zone. -/
def isLastDayOfMonth (z : ZoneRules) (t : Int) : Bool :=
  (civilFromDays ((z.localFromUtc t).fdiv 86400000 + 1)).2.2 = 1

/-- `date-fns` `differenceInCalendarMonths` on local fields. -/
def differenceInCalendarMonths (z : ZoneRules) (a b : Int) : Int :=
  let ca := civilAtLocal (z.localFromUtc a)
  let cb := civilAtLocal (z.localFromUtc b)
  (ca.1 - cb.1) * 12 + (ca.2.1 - cb.2.1)

/-- `date-fns` v3 `differenceInMonths(laterDate, earlierDate)`: number of
full calendar months, with the February/`setDate(30)` guard and the
last-month-not-full adjustment of the original. -/
def differenceInMonths (z : ZoneRules) (later earlier : Int) : Int :=
  let sign := Int.sign (later - earlier)
  let difference : Int := (differenceInCalendarMonths z later earlier).natAbs
  if difference < 1 then 0
  else
    let w0 : Option Int :=
      if getMonth0 z later = 1 ∧ getDayOfMonth z later > 27 then
        setLocalDay z later 30
      else some later
    let working := w0.bind (fun w => setLocalMonth z w (getMonth0 z w - sign * difference))
    let notFull : Bool :=
      match working with
      | some w => decide (Int.sign (w - earlier) = -sign)
      | none => false
    let notFull : Bool :=
      if isLastDayOfMonth z later ∧ difference = 1 ∧
          Int.sign (later - earlier) = 1 then false
      else notFull
    sign * (difference - (if notFull then 1 else 0))

/-- The distance phrase (en-US) for a non-negative span of `minutes`
(already DST-compensated) and raw `seconds`, per `date-fns` v3
`formatDistance`'s threshold cascade. -/
def formatDistanceCore (z : ZoneRules) (includeSeconds : Bool)
    (minutes seconds dateRight dateLeft : Int) : String :=
  if minutes < 2 then
    if includeSeconds then
      if seconds < 5 then "less than 5 seconds"
      else if seconds < 10 then "less than 10 seconds"
      else if seconds < 20 then "less than 20 seconds"
      else if seconds < 40 then "half a minute"
      else if seconds < 60 then "less than a minute"
      else "1 minute"
    else if minutes = 0 then "less than a minute"
    else fdXMinutes minutes
  else if minutes < 45 then fdXMinutes minutes
  else if minutes < 90 then fdAboutXHours 1
  else if minutes < 1440 then fdAboutXHours (jsRound ((minutes : ℚ) / 60))
  else if minutes < 2520 then fdXDays 1
  else if minutes < 43200 then fdXDays (jsRound ((minutes : ℚ) / 1440))
  else if minutes < 86400 then fdAboutXMonths (jsRound ((minutes : ℚ) / 43200))
  else
    let months := differenceInMonths z dateRight dateLeft
    if months < 12 then fdXMonths (jsRound ((minutes : ℚ) / 43200))
    else
      let msy := months.emod 12
      let years := months.fdiv 12
      if msy < 3 then fdAboutXYears years
      else if msy < 9 then fdOverXYears years
      else fdAlmostXYears (years + 1)

/-- `Math.round((seconds - offsetInSeconds) / 60)` where `offsetInSeconds`
is the zone-offset drift `offDiff / 1000` (exact real arithmetic). -/
def distanceMinutes (seconds offDiff : Int) : Int :=
  jsRound (((seconds : ℚ) - (offDiff : ℚ) / 1000) / 60)

/-- `date-fns` v3 `formatDistance(date, now, {addSuffix, includeSeconds})`
on valid dates: truncated seconds, minutes rounded after removing the
local-zone offset drift, then the en-US phrase with `in `/` ago`. -/
def formatDistance (addSuffix includeSeconds : Bool) (date now : Int)
    (env : Env) : String :=
  let z := localRules env
  let comparison := Int.sign (date - now)
  let dateLeft := if comparison > 0 then now else date
  let dateRight := if comparison > 0 then date else now
  let seconds := (dateRight - dateLeft).ediv 1000
  let minutes := distanceMinutes seconds (z.offsetAt dateRight - z.offsetAt dateLeft)
  let core := formatDistanceCore z includeSeconds minutes seconds dateRight dateLeft
  if addSuffix then
    if comparison > 0 then "in " ++ core else core ++ " ago"
  else core

/-- The options record of `formatRelative`; an absent field models an
absent key (JavaScript object spread). -/
structure RelativeOptions where
  addSuffix : Option Bool := none
  includeSeconds : Option Bool := none

/-- `formatRelative(options?)` (`date.ts` lines 216–223): delegates to
`formatDistanceToNow(date, { addSuffix: true, ...options })`, which raises
`RangeError` on an Invalid Date and otherwise formats the distance to the
current instant `now`. -/
def formatRelative (options : Option RelativeOptions) (d : Option Int)
    (now : Int) (env : Env) : Except String String :=
  let addSuffix := (options.bind RelativeOptions.addSuffix).getD true
  let includeSeconds := (options.bind RelativeOptions.includeSeconds).getD false
  match d with
  | none => Except.error "RangeError: Invalid time value"
  | some t => Except.ok (formatDistance addSuffix includeSeconds t now env)

/-- `formatTimestampRelative(isSeconds?)` (`date.ts` lines 230–238):
converts the raw timestamp (seconds or milliseconds per the flag's
truthiness) and delegates to `formatRelative()`. -/
def formatTimestampRelative (isSeconds : Option Bool) (timestamp : Int)
    (now : Int) (env : Env) : Except String String :=
  let seconds := isSeconds.getD false
  let date := if seconds then fromUnixTimestampSeconds timestamp
              else fromUnixTimestamp timestamp
  formatRelative none date now env

/-! ## Smart format selection (`date.ts` lines 252–271) -/

/-- `formatDateSmart(cutoffDays?, timeZone?)`: `cutoff = cutoffDays || 7`
and `tz = timeZone || getUserTimezone()` are fixed at creation time
(`envCreate`); the closure samples `now`, computes
`Math.abs((now - date) / 86400000)` as a real number and uses the relative
formatter when it is `≤ cutoff`, the human zoned formatter otherwise.
For an Invalid Date the `NaN` comparison is false, so the human branch
runs (and raises). -/
def formatDateSmart (cutoffDays : Option Int) (timeZone : Option String)
    (envCreate : Env) (d : Option Int) (now : Int) (envInvoke : Env) :
    Except String String :=
  let cutoff := (truthyInt cutoffDays).getD 7
  let tz := (truthyStr timeZone).getD (getUserTimezone envCreate)
  match d with
  | none => formatDateHuman (some tz) envInvoke none envInvoke
  | some t =>
    if |((now : ℚ) - (t : ℚ))| / (1000 * 60 * 60 * 24) ≤ (cutoff : ℚ) then
      formatRelative none (some t) now envInvoke
    else
      formatDateHuman (some tz) envInvoke (some t) envInvoke

/-! ## Ambient environments used in concrete statements -/

def envUTC : Env := ⟨some "UTC"⟩

def envNY : Env := ⟨some "America/New_York"⟩

def envBerlin : Env := ⟨some "Europe/Berlin"⟩

/-- Ambient state in which the environment cannot determine a zone. -/
def envUnknown : Env := ⟨none⟩

/-! ## Evaluation lemmas

The source computes with IEEE real arithmetic (`Math.round`, `Math.abs`,
float division); on the integer inputs of this model those computations
are exact rational arithmetic, which the following lemmas convert to
integer floor divisions so that concrete runs reduce. -/

theorem jsRound_div60 (a : Int) :
    jsRound ((a : ℚ) / 60) = (2 * a + 60) / 120 := by
  unfold jsRound
  have h : (a : ℚ) / 60 + 1 / 2 = ((2 * a + 60 : ℤ) : ℚ) / ((120 : ℕ) : ℚ) := by
    push_cast; ring
  rw [h, Rat.floor_intCast_div_natCast]
  norm_num

theorem jsRound_div1440 (a : Int) :
    jsRound ((a : ℚ) / 1440) = (2 * a + 1440) / 2880 := by
  unfold jsRound
  have h : (a : ℚ) / 1440 + 1 / 2 = ((2 * a + 1440 : ℤ) : ℚ) / ((2880 : ℕ) : ℚ) := by
    push_cast; ring
  rw [h, Rat.floor_intCast_div_natCast]
  norm_num

theorem jsRound_div43200 (a : Int) :
    jsRound ((a : ℚ) / 43200) = (2 * a + 43200) / 86400 := by
  unfold jsRound
  have h : (a : ℚ) / 43200 + 1 / 2 = ((2 * a + 43200 : ℤ) : ℚ) / ((86400 : ℕ) : ℚ) := by
    push_cast; ring
  rw [h, Rat.floor_intCast_div_natCast]
  norm_num

theorem distanceMinutes_eq (s d : Int) :
    distanceMinutes s d = (2000 * s - 2 * d + 60000) / 120000 := by
  unfold distanceMinutes jsRound
  have h : ((s : ℚ) - (d : ℚ) / 1000) / 60 + 1 / 2 =
      ((2000 * s - 2 * d + 60000 : ℤ) : ℚ) / ((120000 : ℕ) : ℚ) := by
    push_cast; ring
  rw [h, Rat.floor_intCast_div_natCast]
  norm_num

/-- The smart formatter's real-valued decision
`|now - t| / 86 400 000 ≤ cutoff` is the integer comparison
`|now - t| ≤ cutoff * 86 400 000`. -/
theorem smart_guard_iff (now t c : Int) :
    (|((now : ℚ) - (t : ℚ))| / (1000 * 60 * 60 * 24) ≤ (c : ℚ)) ↔
      |now - t| ≤ c * 86400000 := by
  rw [div_le_iff₀ (by norm_num : (0 : ℚ) < 1000 * 60 * 60 * 24)]
  rw [show ((now : ℚ) - (t : ℚ)) = ((now - t : ℤ) : ℚ) by push_cast; ring]
  rw [← Int.cast_abs]
  rw [show (c : ℚ) * (1000 * 60 * 60 * 24) = ((c * 86400000 : ℤ) : ℚ) by
    push_cast; ring]
  exact Int.cast_le

/-! ## Helper lemmas -/

theorem truthyStr_eq_some {s : Option String} {v : String}
    (h : truthyStr s = some v) : v ≠ "" := by
  cases s with
  | none => exact absurd h (by simp [truthyStr])
  | some s =>
    by_cases hs : s = ""
    · simp [truthyStr, hs] at h
    · simp [truthyStr, hs] at h
      exact h ▸ hs

theorem truthyStr_getD_ne (tzOpt : Option String) (dflt : String)
    (h0 : dflt ≠ "") : (truthyStr tzOpt).getD dflt ≠ "" := by
  cases h : truthyStr tzOpt with
  | none => simpa using h0
  | some v => simpa using truthyStr_eq_some h

theorem formatInTimeZone_invalid (tz fmt : String) :
    ∃ e, formatInTimeZone none tz fmt = Except.error e := by
  unfold formatInTimeZone
  cases tzdb tz with
  | none => exact ⟨_, rfl⟩
  | some rules => exact ⟨_, rfl⟩

theorem formatDate_invalid (fs tz : Option String) (env : Env) :
    (formatDate fs tz none env).isOk = false := by
  unfold formatDate
  cases truthyStr tz with
  | none => rfl
  | some z =>
    obtain ⟨e, he⟩ := formatInTimeZone_invalid z ((truthyStr fs).getD "MM/dd/yyyy")
    show (formatInTimeZone none z ((truthyStr fs).getD "MM/dd/yyyy")).isOk = false
    rw [he]
    rfl

theorem formatDateHuman_invalid (tz : Option String) (envC envI : Env) :
    (formatDateHuman tz envC none envI).isOk = false := by
  obtain ⟨e1, he1⟩ :=
    formatInTimeZone_invalid ((truthyStr tz).getD (getUserTimezone envC))
      "MMMM d, yyyy h:mm a"
  obtain ⟨e2, he2⟩ :=
    formatInTimeZone_invalid ((truthyStr tz).getD (getUserTimezone envC)) "zzz"
  simp only [formatDateHuman, he1, he2]
  rfl

theorem formatDateHumanFull_invalid (tz : Option String) (envC envI : Env) :
    (formatDateHumanFull tz envC none envI).isOk = false := by
  obtain ⟨e1, he1⟩ :=
    formatInTimeZone_invalid ((truthyStr tz).getD (getUserTimezone envC))
      "MMMM d, yyyy h:mm a"
  obtain ⟨e2, he2⟩ :=
    formatInTimeZone_invalid ((truthyStr tz).getD (getUserTimezone envC)) "zzzz"
  simp only [formatDateHumanFull, he1, he2]
  rfl

theorem formatDateHuman_creation_env (tzv : String) (h : tzv ≠ "")
    (e1 e2 e1inv e2inv : Env) (d : Option Int) :
    formatDateHuman (some tzv) e1 d e1inv = formatDateHuman (some tzv) e2 d e2inv := by
  unfold formatDateHuman
  rw [show truthyStr (some tzv) = some tzv from by simp [truthyStr, h]]
  rfl

theorem clip_of_le {t : Int} (h : t.natAbs ≤ 8640000000000000) :
    clip t = some t := by
  simp [clip, h]

/-- In a fixed-offset ambient zone (no transitions), the local-calendar
day shift of `addDays` is pure elapsed-time addition followed by
`TimeClip`. -/
theorem addDays_fixedOffset (z : ZoneRules) (hz : z.transitions = [])
    (x n : Int) (hx : x.natAbs ≤ 8640000000000000) :
    addDays z n (some x) = clip (x + n * 86400000) := by
  show (if n = 0 then some x
      else clip (z.utcFromLocal (z.localFromUtc x + n * 86400000))) =
    clip (x + n * 86400000)
  by_cases hn : n = 0
  · subst hn
    rw [if_pos rfl]
    rw [show x + 0 * 86400000 = x by ring]
    exact (clip_of_le hx).symm
  · rw [if_neg hn]
    unfold ZoneRules.utcFromLocal ZoneRules.localFromUtc ZoneRules.offsetAt
      ZoneRules.segAt
    rw [hz]
    unfold utcFromLocalAux segAtAux
    congr 1
    ring

/-! ## Claim theorems -/

/-- C1 (counterexample): formatting the invalid Instant built from the
unparseable string "not-a-date" with the default `formatDate` transformer
raises (`RangeError: Invalid time value`) instead of returning an
invalid-marker string, contradicting the claim's never-raise policy. -/
theorem C1_counterexample :
    formatDate none none (isoDateToLocal "not-a-date") envUTC =
      Except.error "RangeError: Invalid time value" := rfl

/-- C1 (amended): for every invalid Instant, every formatting operation of
the core (format, formatUS, formatEU, formatHuman, formatHumanFull,
formatRelative, formatSmart) raises a `RangeError` — none returns a marker
string; only the validator (which reports `false`) handles invalid
Instants without raising. -/
theorem C1_formatting_invalid_raises :
    (∀ fs tz env, (formatDate fs tz none env).isOk = false)
    ∧ (∀ tz env, (formatUSDate tz none env).isOk = false)
    ∧ (∀ tz env, (formatEUDate tz none env).isOk = false)
    ∧ (∀ tz envC envI, (formatDateHuman tz envC none envI).isOk = false)
    ∧ (∀ tz envC envI, (formatDateHumanFull tz envC none envI).isOk = false)
    ∧ (∀ opts now env, (formatRelative opts none now env).isOk = false)
    ∧ (∀ cd tz envC now envI,
        (formatDateSmart cd tz envC none now envI).isOk = false)
    ∧ isValidDate (isoDateToLocal "not-a-date") = false := by
  refine ⟨formatDate_invalid, ?_, ?_, formatDateHuman_invalid,
    formatDateHumanFull_invalid, ?_, ?_, rfl⟩
  · intro tz env
    exact formatDate_invalid (some "MM/dd/yyyy")
      (some ((truthyStr tz).getD "America/New_York")) env
  · intro tz env
    exact formatDate_invalid (some "dd.MM.yyyy")
      (some ((truthyStr tz).getD "Europe/Berlin")) env
  · intro opts now env
    rfl
  · intro cd tz envC now envI
    exact formatDateHuman_invalid
      (some ((truthyStr tz).getD (getUserTimezone envC))) envI envI

/-- C2 (counterexample): in an ambient America/New_York zone, adding one
day to 2023-03-11T15:00Z (local 10:00 EST, the eve of the spring-forward
transition) gives 2023-03-12T14:00Z (local 10:00 EDT) — 23 elapsed hours —
whereas pure elapsed-time addition `fromMillis(toMillis x + 1·86400000)`
gives 2023-03-12T15:00Z; so `addDays` does depend on the ambient zone's
DST rules. -/
theorem C2_counterexample :
    addDays tz_AmericaNewYork 1 (some 1678546800000) = some 1678629600000 ∧
    fromUnixTimestamp (1678546800000 + 1 * 86400000) = some 1678633200000 ∧
    addDays tz_AmericaNewYork 1 (some 1678546800000) ≠
      fromUnixTimestamp (1678546800000 + 1 * 86400000) := by
  refine ⟨rfl, rfl, ?_⟩
  decide

/-- C2 (amended): `addDays` is calendar-day shifting of the local
wall-clock representation in the ambient machine zone; whenever that
ambient zone has a fixed UTC offset (no DST transition), it coincides with
pure elapsed-time addition `fromMillis(toMillis x + n·86400000)` for every
valid instant and every integer `n`. -/
theorem C2_addDays_elapsed_fixedOffset (z : ZoneRules)
    (hz : z.transitions = []) (x n : Int)
    (hx : x.natAbs ≤ 8640000000000000) :
    addDays z n (some x) = fromUnixTimestamp (x + n * 86400000) :=
  addDays_fixedOffset z hz x n hx

theorem C2_witness :
    addDays tz_UTC 3 (some 1703500200000) =
      fromUnixTimestamp (1703500200000 + 3 * 86400000) :=
  C2_addDays_elapsed_fixedOffset tz_UTC rfl 1703500200000 3 (by decide)

/-- C5 (counterexample): in an ambient America/New_York zone, starting
from 2023-03-07T07:30Z (local 02:30 EST), `addDays(5)` lands in the
2023-03-12 spring-forward gap (02:30 does not exist), which ECMA-262
resolves to 03:30 EDT; `subtractDays(5)` then returns local 03:30 on
March 7 — one hour later than the original instant, so the round trip
fails near a DST transition. -/
theorem C5_counterexample :
    subtractDays tz_AmericaNewYork 5
        (addDays tz_AmericaNewYork 5 (some 1678174200000)) =
      some (1678174200000 + 3600000) ∧
    subtractDays tz_AmericaNewYork 5
        (addDays tz_AmericaNewYork 5 (some 1678174200000)) ≠
      some 1678174200000 := by
  refine ⟨rfl, ?_⟩
  decide

/-- C5 (amended): `subtractDays(n)` coincides with `addDays(-n)` for every
zone, count and instant; and the `addDays(5)`-then-`subtractDays(5)` round
trip returns the original instant whenever the ambient zone has a fixed
offset (no DST transition in the window crossed). -/
theorem C5_subtract_inverse :
    (∀ (z : ZoneRules) (n : Int) (d : Option Int),
      subtractDays z n d = addDays z (-n) d)
    ∧ (∀ (z : ZoneRules) (x : Int), z.transitions = [] →
        x.natAbs ≤ 8640000000000000 →
        (x + 5 * 86400000).natAbs ≤ 8640000000000000 →
        subtractDays z 5 (addDays z 5 (some x)) = some x) := by
  constructor
  · intro z n d
    rfl
  · intro z x hz hx h5
    rw [addDays_fixedOffset z hz x 5 hx, clip_of_le h5]
    show addDays z (-5) (some (x + 5 * 86400000)) = some x
    rw [addDays_fixedOffset z hz _ (-5) h5]
    rw [show x + 5 * 86400000 + -5 * 86400000 = x by ring]
    exact clip_of_le hx

theorem C5_witness :
    subtractDays tz_UTC 4 (some 99) = addDays tz_UTC (-4) (some 99) ∧
    subtractDays tz_UTC 5 (addDays tz_UTC 5 (some 1703500200000)) =
      some 1703500200000 :=
  ⟨C5_subtract_inverse.1 tz_UTC 4 (some 99),
   C5_subtract_inverse.2 tz_UTC 1703500200000 rfl (by decide) (by decide)⟩

/-- C6 (counterexample): the seconds round trip is not universal: for
`s = 8 640 000 000 001` (just past the representable ±8.64e15 ms range),
`fromSeconds(s)` is an Invalid Date and `toSeconds` of it is `NaN`, not
`s`. -/
theorem C6_counterexample :
    toUnixTimestampSeconds (fromUnixTimestampSeconds 8640000000001) = none ∧
    toUnixTimestampSeconds (fromUnixTimestampSeconds 8640000000001) ≠
      some 8640000000001 := by
  refine ⟨rfl, ?_⟩
  decide

/-- C6 (amended): timestamp conversions round-trip exactly on the
representable range: `toMillis(fromMillis n) = n` for every integer `n`
with `|n| ≤ 8.64e15`, and `toSeconds(fromSeconds s) = s` for every integer
`s` with `|s| ≤ 8.64e12` (so that `s·1000` is representable); no precision
is lost. -/
theorem C6_roundtrip :
    (∀ n : Int, n.natAbs ≤ 8640000000000000 →
      toUnixTimestamp (fromUnixTimestamp n) = some n)
    ∧ (∀ s : Int, s.natAbs ≤ 8640000000000 →
      toUnixTimestampSeconds (fromUnixTimestampSeconds s) = some s) := by
  constructor
  · intro n hn
    show clip n = some n
    exact clip_of_le hn
  · intro s hs
    have hr : (s * 1000).natAbs ≤ 8640000000000000 := by
      rw [Int.natAbs_mul]
      calc s.natAbs * (1000 : Int).natAbs ≤ 8640000000000 * 1000 :=
            Nat.mul_le_mul hs (by decide)
        _ = 8640000000000000 := by norm_num
    show (clip (s * 1000)).map (fun t => t.fdiv 1000) = some s
    rw [clip_of_le hr]
    show some ((s * 1000).fdiv 1000) = some s
    congr 1
    exact Int.mul_fdiv_cancel s (by norm_num)

theorem C6_witness :
    toUnixTimestamp (fromUnixTimestamp 1703500200000) = some 1703500200000 ∧
    toUnixTimestampSeconds (fromUnixTimestampSeconds (-5)) = some (-5) :=
  ⟨C6_roundtrip.1 1703500200000 (by decide), C6_roundtrip.2 (-5) (by decide)⟩

/-- C9: zone-correct concrete outputs: the epoch instant formatted with
pattern `yyyy-MM-dd'T'HH:mm` in UTC is "1970-01-01T00:00"; the instant for
2023-12-25T10:30:00 UTC is "12/25/2023" under `formatUS()` (default zone
America/New_York) and "25.12.2023" under `formatEU()` (default zone
Europe/Berlin). -/
theorem C9_zone_correct_outputs :
    formatDate (some "yyyy-MM-dd'T'HH:mm") (some "UTC")
        (fromUnixTimestamp 0) envUTC = Except.ok "1970-01-01T00:00" ∧
    formatUSDate none (isoDateToLocal "2023-12-25T10:30:00Z") envUTC =
      Except.ok "12/25/2023" ∧
    formatEUDate none (isoDateToLocal "2023-12-25T10:30:00Z") envUTC =
      Except.ok "25.12.2023" :=
  ⟨rfl, rfl, rfl⟩

/-- C10: the `||`-defaulting of the public formatters treats every falsy
argument as absent: `formatSmart` with `cutoffDays = 0` behaves exactly
like the default (cutoff 7; an instant 2 days old still formats relative),
`format` with an empty-string pattern uses `MM/dd/yyyy`, and
`formatUS`/`formatEU` with an empty-string zone use their default zones. -/
theorem C10_falsy_treated_as_absent :
    (∀ tz envC d now envI, formatDateSmart (some 0) tz envC d now envI =
      formatDateSmart none tz envC d now envI)
    ∧ formatDateSmart (some 0) none envUTC
        (some (1703500200000 - 2 * 86400000)) 1703500200000 envUTC =
      Except.ok "2 days ago"
    ∧ (∀ tz d env, formatDate (some "") tz d env = formatDate none tz d env)
    ∧ formatDate (some "") (some "UTC") (some 1703500200000) envUTC =
      Except.ok "12/25/2023"
    ∧ (∀ d env, formatUSDate (some "") d env = formatUSDate none d env)
    ∧ formatUSDate (some "") (some 1703500200000) envUTC =
      Except.ok "12/25/2023"
    ∧ (∀ d env, formatEUDate (some "") d env = formatEUDate none d env)
    ∧ formatEUDate (some "") (some 1703500200000) envUTC =
      Except.ok "25.12.2023" := by
  refine ⟨fun tz envC d now envI => rfl, ?_, fun tz d env => rfl, rfl,
    fun d env => rfl, rfl, fun d env => rfl, rfl⟩
  simp only [formatDateSmart, formatRelative, formatDistance,
    formatDistanceCore, distanceMinutes_eq, jsRound_div60, jsRound_div1440,
    jsRound_div43200, smart_guard_iff]
  norm_num
  rfl

/-- C7: `formatSmart(cutoffDays = 7, zone?)` delegates by the unrounded
real comparison `|now - instant| / 86 400 000 ≤ cutoff` (equivalently
`|now - instant| ≤ cutoff·86 400 000`), inclusive at the boundary: within
it the relative formatter runs, beyond it the human zoned formatter with
the given or default zone; an instant exactly 7 days old still formats
relative ("7 days ago") while one millisecond older formats zoned. -/
theorem C7_smart_cutoff_inclusive :
    (∀ (cd : Option Int) (tzOpt : Option String) (envC : Env)
        (x now : Int) (envI : Env),
      formatDateSmart cd tzOpt envC (some x) now envI =
        if |now - x| ≤ ((truthyInt cd).getD 7) * 86400000 then
          formatRelative none (some x) now envI
        else
          formatDateHuman (some ((truthyStr tzOpt).getD (getUserTimezone envC)))
            envI (some x) envI)
    ∧ formatDateSmart none none envUTC
        (some (1703500200000 - 7 * 86400000)) 1703500200000 envUTC =
      Except.ok "7 days ago"
    ∧ formatDateSmart none none envUTC
        (some (1703500200000 - 7 * 86400000 - 1)) 1703500200000 envUTC =
      Except.ok "December 18, 2023 10:29 AM UTC" := by
  refine ⟨?_, ?_, ?_⟩
  · intro cd tzOpt envC x now envI
    simp only [formatDateSmart, smart_guard_iff]
  · simp only [formatDateSmart, formatRelative, formatDistance,
      formatDistanceCore, distanceMinutes_eq, jsRound_div60, jsRound_div1440,
      jsRound_div43200, smart_guard_iff]
    norm_num
    rfl
  · simp only [formatDateSmart, formatRelative, formatDistance,
      formatDistanceCore, distanceMinutes_eq, jsRound_div60, jsRound_div1440,
      jsRound_div43200, smart_guard_iff]
    norm_num
    rfl

/-- C3 (counterexample): the default zone is captured when the formatter
value is created, not re-resolved per invocation: a `formatHuman` created
under an ambient UTC environment, invoked while the ambient zone is
America/New_York, still renders in UTC — its output does not reflect the
new ambient zone (which would render "December 25, 2023 5:30 AM EST"). -/
theorem C3_counterexample :
    formatDateHuman none envUTC (some 1703500200000) envNY =
      Except.ok "December 25, 2023 10:30 AM UTC" ∧
    formatDateHuman none envNY (some 1703500200000) envNY =
      Except.ok "December 25, 2023 5:30 AM EST" ∧
    formatDateHuman none envUTC (some 1703500200000) envNY ≠
      formatDateHuman none envNY (some 1703500200000) envNY := by
  refine ⟨rfl, rfl, ?_⟩
  intro h
  exact absurd (Except.ok.inj h) (by decide)

/-- C3 (amended): when the timezone argument is omitted, the default zone
is resolved by consulting the ambient environment once at formatter
creation and cached in the closure: the invocation-time environment never
affects the output of `formatDateLocal`, `formatDateHuman`,
`formatDateHumanFull`, or of `formatDateSmart`'s zoned branch. -/
theorem C3_default_zone_cached_at_creation :
    (∀ fs envC d e1 e2, getUserTimezone envC ≠ "" →
      formatDateLocal fs envC d e1 = formatDateLocal fs envC d e2)
    ∧ (∀ tz envC d e1 e2,
      formatDateHuman tz envC d e1 = formatDateHuman tz envC d e2)
    ∧ (∀ tz envC d e1 e2,
      formatDateHumanFull tz envC d e1 = formatDateHumanFull tz envC d e2)
    ∧ (∀ cd tzOpt envC x now e1 e2, getUserTimezone envC ≠ "" →
      ¬ |now - x| ≤ ((truthyInt cd).getD 7) * 86400000 →
      formatDateSmart cd tzOpt envC (some x) now e1 =
        formatDateSmart cd tzOpt envC (some x) now e2) := by
  refine ⟨?_, fun tz envC d e1 e2 => rfl, fun tz envC d e1 e2 => rfl, ?_⟩
  · intro fs envC d e1 e2 h0
    unfold formatDateLocal formatDate
    rw [show truthyStr (some (getUserTimezone envC)) = some (getUserTimezone envC)
      from by simp [truthyStr, h0]]
  · intro cd tzOpt envC x now e1 e2 h0 hguard
    have htz : (truthyStr tzOpt).getD (getUserTimezone envC) ≠ "" :=
      truthyStr_getD_ne tzOpt (getUserTimezone envC) h0
    simp only [formatDateSmart, smart_guard_iff]
    rw [if_neg hguard, if_neg hguard]
    exact formatDateHuman_creation_env _ htz e1 e2 e1 e2 (some x)

theorem C3_witness :
    (getUserTimezone envUTC ≠ "" ∧
      formatDateLocal none envUTC (some 0) envNY =
        formatDateLocal none envUTC (some 0) envBerlin) ∧
    (getUserTimezone envUTC ≠ "" ∧
      ¬ |(864000000 : Int) - 0| ≤ ((truthyInt none).getD 7) * 86400000 ∧
      formatDateSmart none none envUTC (some 0) 864000000 envNY =
        formatDateSmart none none envUTC (some 0) 864000000 envBerlin) :=
  ⟨⟨by decide,
    C3_default_zone_cached_at_creation.1 none envUTC (some 0) envNY envBerlin
      (by decide)⟩,
   ⟨by decide, by decide,
    C3_default_zone_cached_at_creation.2.2.2 none none envUTC 0 864000000
      envNY envBerlin (by decide) (by decide)⟩⟩

/-- C4: `resolveDefaultZone()` (`getUserTimezone`) always returns a
non-empty identifier resolvable by the host database; when the environment
cannot determine a zone the fixed fallback "UTC" is substituted, and this
recovery is invisible to the caller (no error value exists). -/
theorem C4_default_zone_total (env : Env) (h : envWF env) :
    getUserTimezone env ≠ "" ∧
    (tzdb (getUserTimezone env)).isSome = true ∧
    (env.tzName = none → getUserTimezone env = "UTC") := by
  cases henv : env.tzName with
  | none =>
    refine ⟨?_, ?_, fun _ => ?_⟩ <;> rw [getUserTimezone, henv] <;> decide
  | some s =>
    obtain ⟨h1, h2⟩ := h s henv
    refine ⟨?_, ?_, ?_⟩
    · rw [getUserTimezone, henv]
      exact h1
    · rw [getUserTimezone, henv]
      exact h2
    · intro hc
      exact absurd hc (by simp)

theorem C4_witness :
    (getUserTimezone envNY ≠ "" ∧
      (tzdb (getUserTimezone envNY)).isSome = true ∧
      (envNY.tzName = none → getUserTimezone envNY = "UTC")) ∧
    getUserTimezone envUnknown = "UTC" :=
  ⟨C4_default_zone_total envNY
      (fun s hs => by cases hs; exact ⟨by decide, rfl⟩),
   (C4_default_zone_total envUnknown (fun s hs => by cases hs)).2.2 rfl⟩

/-- C8 (counterexample): the empty string is a TimezoneId the runtime
cannot resolve (`Intl` raises for it), yet `format` given an explicit
empty-string zone does not fail: it silently falls back to the machine
zone and formats there (here ambient America/New_York renders 10:30 UTC
as 05:30). -/
theorem C8_counterexample :
    tzdb "" = none ∧
    formatDate (some "HH:mm") (some "") (some 1703500200000) envNY =
      Except.ok "05:30" :=
  ⟨rfl, rfl⟩

/-- C8 (amended): for every explicitly supplied non-empty TimezoneId the
runtime cannot resolve, the zoned formatters raise a `RangeError` rather
than silently substituting a zone; an explicit empty-string zone, however,
is treated as an absent argument (the default/machine zone is silently
substituted). -/
theorem C8_unresolvable_zone_raises (tz : String) (hne : tz ≠ "")
    (hun : tzdb tz = none) :
    (∀ fs d env, formatDate fs (some tz) d env =
      Except.error ("RangeError: Invalid time zone specified: " ++ tz))
    ∧ (∀ d env, formatUSDate (some tz) d env =
      Except.error ("RangeError: Invalid time zone specified: " ++ tz))
    ∧ (∀ d env, formatEUDate (some tz) d env =
      Except.error ("RangeError: Invalid time zone specified: " ++ tz))
    ∧ (∀ envC d envI, formatDateHuman (some tz) envC d envI =
      Except.error ("RangeError: Invalid time zone specified: " ++ tz))
    ∧ (∀ envC d envI, formatDateHumanFull (some tz) envC d envI =
      Except.error ("RangeError: Invalid time zone specified: " ++ tz))
    ∧ (∀ fs d env, formatDate fs (some "") d env = formatDate fs none d env) := by
  have htr : truthyStr (some tz) = some tz := by simp [truthyStr, hne]
  have hfz : ∀ d fmt, formatInTimeZone d tz fmt =
      Except.error ("RangeError: Invalid time zone specified: " ++ tz) := by
    intro d fmt
    unfold formatInTimeZone
    rw [hun]
  refine ⟨?_, ?_, ?_, ?_, ?_, fun fs d env => rfl⟩
  · intro fs d env
    unfold formatDate
    rw [htr]
    exact hfz d _
  · intro d env
    unfold formatUSDate
    rw [htr]
    show formatDate (some "MM/dd/yyyy") (some tz) d env = _
    unfold formatDate
    rw [htr]
    exact hfz d _
  · intro d env
    unfold formatEUDate
    rw [htr]
    show formatDate (some "dd.MM.yyyy") (some tz) d env = _
    unfold formatDate
    rw [htr]
    exact hfz d _
  · intro envC d envI
    unfold formatDateHuman
    rw [htr]
    show (match formatInTimeZone d tz "MMMM d, yyyy h:mm a",
        formatInTimeZone d tz "zzz" with
      | Except.ok dateStr, Except.ok tzAbbr => Except.ok (dateStr ++ " " ++ tzAbbr)
      | Except.error e, _ => Except.error e
      | _, Except.error e => Except.error e) = _
    rw [hfz d "MMMM d, yyyy h:mm a", hfz d "zzz"]
  · intro envC d envI
    unfold formatDateHumanFull
    rw [htr]
    show (match formatInTimeZone d tz "MMMM d, yyyy h:mm a",
        formatInTimeZone d tz "zzzz" with
      | Except.ok dateStr, Except.ok tzFull => Except.ok (dateStr ++ " " ++ tzFull)
      | Except.error e, _ => Except.error e
      | _, Except.error e => Except.error e) = _
    rw [hfz d "MMMM d, yyyy h:mm a", hfz d "zzzz"]

theorem C8_witness :
    formatDate none (some "Mars/Olympus") (some 0) envUTC =
      Except.error "RangeError: Invalid time zone specified: Mars/Olympus" ∧
    formatDateHuman (some "Mars/Olympus") envUTC (some 0) envUTC =
      Except.error "RangeError: Invalid time zone specified: Mars/Olympus" := by
  have h := C8_unresolvable_zone_raises "Mars/Olympus" (by decide) rfl
  exact ⟨h.1 none (some 0) envUTC, h.2.2.2.1 envUTC (some 0) envUTC⟩

end DataTransformer
